import Mathlib

/-!
Verification development for the DAud repository (`src/domain_auditor.py`).

The auditor fetches SPF / DKIM / DMARC TXT records through a DNS resolver and
validates each candidate record against a regular expression taken from the
relevant RFC.  The embedding below models:

* Python's `re` backtracking semantics (leftmost match, greedy quantifiers,
  alternation tried left to right) for exactly the regular expressions that
  appear in the source;
* the `dauditor` class state (target, selectors, dkim type, and the three
  cached record lists, `None` before the first fetch);
* the resolver as an oracle `name → record-type → answers-or-failure`, one
  answer being the `to_text()` form of one DNS TXT answer (quoted segments
  included), the form the source's fetchers parse;
* Python runtime errors the source can raise (`IndexError` from `list[0]` on
  an empty list, `TypeError` from `len(None)`) as an `Except` layer.
-/

namespace DAud

/-- Python `\s` on ASCII input: space, tab, newline, carriage return,
vertical tab, form feed. -/
def isSpaceChar (c : Char) : Bool :=
  c == ' ' || c == '\t' || c == '\n' || c == '\r' || c == '\x0b' || c == '\x0c'

/-- Python `\w` restricted to ASCII (all strings handled here are ASCII):
letters, digits, underscore. -/
def isWordChar (c : Char) : Bool :=
  c.isAlphanum || c == '_'

/-- Regular-expression syntax, covering exactly the constructs used by the
patterns in `domain_auditor.py`: character classes, concatenation,
alternation, greedy star, and zero-width lookahead `(?=...)`.  `?`, `+` and
counted repetition are derived forms. -/
inductive RE where
  | eps : RE
  | cls (p : Char → Bool) : RE
  | seq (a b : RE) : RE
  | alt (a b : RE) : RE
  | star (a : RE) : RE
  | look (a : RE) : RE

/-- Literal single character. -/
def RE.chr (c : Char) : RE := .cls (fun d => d == c)

/-- Literal character sequence. -/
def RE.lit : List Char → RE
  | [] => .eps
  | c :: cs => .seq (RE.chr c) (RE.lit cs)

/-- Literal string. -/
def RE.litS (s : String) : RE := RE.lit s.data

/-- Greedy `?`. -/
def RE.quest (a : RE) : RE := .alt a .eps

/-- Greedy `+`. -/
def RE.plus (a : RE) : RE := .seq a (.star a)

/-- Exact repetition `{n}`. -/
def RE.rep : RE → Nat → RE
  | _, 0 => .eps
  | a, n + 1 => .seq a (RE.rep a n)

/-- `{1,3}` as `a a? a?` — same sequence of candidate end positions as
Python's greedy `{1,3}` (longest first). -/
def RE.rep13 (a : RE) : RE := .seq a (.seq (RE.quest a) (RE.quest a))

/-- `{1,2}` as `a a?`. -/
def RE.rep12 (a : RE) : RE := .seq a (RE.quest a)

/-- Alternation over a list, tried left to right like Python `a|b|c`. -/
def RE.alts : List RE → RE
  | [] => .eps
  | [a] => a
  | a :: rest => .alt a (RE.alts rest)

/-- Concatenation over a list. -/
def RE.seqs : List RE → RE
  | [] => .eps
  | [a] => a
  | a :: rest => .seq a (RE.seqs rest)

/-- Backtracking matcher in continuation-passing style, reproducing Python's
`re` strategy: alternation tries the left branch first, `star` is greedy
(tries one more iteration before trying the continuation), and the first
success in that order is returned.  The continuation receives the remaining
input; the overall result is the remaining input at the end of the match.
`fuel` bounds the recursion depth (the call-stack depth of the backtracking
search); every evaluation in this file uses a fuel far above the depth the
inputs can reach. -/
def mrun : Nat → RE → List Char → (List Char → Option (List Char)) → Option (List Char)
  | 0, _, _, _ => none
  | _ + 1, .eps, s, k => k s
  | _ + 1, .cls p, s, k =>
      match s with
      | [] => none
      | c :: cs => if p c then k cs else none
  | f + 1, .seq a b, s, k => mrun f a s (fun s2 => mrun f b s2 k)
  | f + 1, .alt a b, s, k =>
      match mrun f a s k with
      | some r => some r
      | none => mrun f b s k
  | f + 1, .star a, s, k =>
      match mrun f a s (fun s2 => mrun f (.star a) s2 k) with
      | some r => some r
      | none => k s
  | f + 1, .look a, s, k =>
      match mrun f a s some with
      | some _ => k s
      | none => none

/-- Ample recursion-depth bound for every string examined in this file. -/
def FUEL : Nat := 20000

/-- Python `re.match(pat, s)`: match anchored at the start, returning the
matched text (`.group()`) on success. -/
def rmatchGroup (re : RE) (s : String) : Option String :=
  match mrun FUEL re s.data some with
  | some rest => some (String.mk (s.data.take (s.data.length - rest.length)))
  | none => none

/-- Search loop for `re.search`: try a match at each start position, leftmost
first, returning the matched text. -/
def rsearchList (re : RE) : List Char → Option (List Char)
  | [] =>
      match mrun FUEL re [] some with
      | some _ => some []
      | none => none
  | c :: cs =>
      match mrun FUEL re (c :: cs) some with
      | some rest => some ((c :: cs).take ((c :: cs).length - rest.length))
      | none => rsearchList re cs

/-- Python `re.search(pat, s)`, returning `.group()` on success. -/
def rsearchGroup (re : RE) (s : String) : Option String :=
  (rsearchList re s.data).map String.mk

/-- Python `str.replace('" "', ' ')`, specialized to that pattern:
non-overlapping, leftmost first. -/
def joinSegs : List Char → List Char
  | '"' :: ' ' :: '"' :: rest => ' ' :: joinSegs rest
  | c :: rest => c :: joinSegs rest
  | [] => []

/-- `str.replace('" "', ' ')` on strings. -/
def joinSegsS (s : String) : String := String.mk (joinSegs s.data)

/-! Character classes appearing in the source's patterns. -/

/-- `\s` -/
def ws : RE := .cls isSpaceChar
/-- `\d` -/
def digit : RE := .cls Char.isDigit
/-- `\w` -/
def wordc : RE := .cls isWordChar
/-- `.` (any character except newline; no DOTALL flag in the source) -/
def anyc : RE := .cls (fun c => c != '\n')
/-- `[\S]` -/
def nonSpace : RE := .cls (fun c => !(isSpaceChar c))
/-- `[-~+?]` -/
def qual : RE := .cls (fun c => c == '-' || c == '~' || c == '+' || c == '?')
/-- `[\w-]` -/
def wdash : RE := .cls (fun c => isWordChar c || c == '-')
/-- `[\w.-]` (also written `[\.\w-]` in the source) -/
def wdotdash : RE := .cls (fun c => isWordChar c || c == '.' || c == '-')
/-- `[\da-fA-F:]` -/
def hexColon : RE :=
  .cls (fun c => c.isDigit || ('a' ≤ c && c ≤ 'f') || ('A' ≤ c && c ≤ 'F') || c == ':')
/-- `[\w:]` -/
def wcolon : RE := .cls (fun c => isWordChar c || c == ':')
/-- `[\w+/]` -/
def wplusSlash : RE := .cls (fun c => isWordChar c || c == '+' || c == '/')
/-- `[\w\s]` -/
def wspace : RE := .cls (fun c => isWordChar c || isSpaceChar c)
/-- `[01ds]` -/
def foChar : RE := .cls (fun c => c == '0' || c == '1' || c == 'd' || c == 's')
/-- `[rs]` -/
def rsChar : RE := .cls (fun c => c == 'r' || c == 's')
/-- `[a-zA-Z]` -/
def alphaChar : RE := .cls (fun c => ('a' ≤ c && c ≤ 'z') || ('A' ≤ c && c ≤ 'Z'))
/-- `[^;]` -/
def noSemi : RE := .cls (fun c => c != ';')

/-! The three fetch patterns (used with `re.search`). -/

/-- `r'v=spf1.+(?=")'` — `fetch_spf`, line 68. -/
def spfFetchPat : RE :=
  .seqs [.litS "v=spf1", .plus anyc, .look (.chr '"')]

/-- `r'v=DKIM1.+(?=")'` — `fetch_dkim`, line 95. -/
def dkimFetchPat : RE :=
  .seqs [.litS "v=DKIM1", .plus anyc, .look (.chr '"')]

/-- `r'v=DMARC1.+(?=")'` — `fetch_dmarc`, line 117. -/
def dmarcFetchPat : RE :=
  .seqs [.litS "v=DMARC1", .plus anyc, .look (.chr '"')]

/-! The SPF validation pattern (`validate_spf`, line 132), alternative by
alternative in source order. -/

/-- `([\w-]+\.)+[\w-]+` -/
def domainRE : RE := .seq (.plus (.seq (.plus wdash) (.chr '.'))) (.plus wdash)

/-- `(\s[-~+?]?ip4:\d{1,3}(\.\d{1,3}){3}(/\d{1,2})?)` -/
def spfIp4 : RE :=
  .seqs [ws, .quest qual, .litS "ip4:", .rep13 digit,
    .rep (.seq (.chr '.') (.rep13 digit)) 3,
    .quest (.seq (.chr '/') (.rep12 digit))]

/-- `(\s[-~+?]?ip6:[\da-fA-F:]+(/\d{1,2})?)` -/
def spfIp6 : RE :=
  .seqs [ws, .quest qual, .litS "ip6:", .plus hexColon,
    .quest (.seq (.chr '/') (.rep12 digit))]

/-- `(\s[-~+?]?a(:([\w-]+\.)+[\w-]+)?)` -/
def spfA : RE :=
  .seqs [ws, .quest qual, .chr 'a', .quest (.seq (.chr ':') domainRE)]

/-- `(\s[-~+?]?mx(:([\w-]+\.)+[\w-]+)?)` -/
def spfMx : RE :=
  .seqs [ws, .quest qual, .litS "mx", .quest (.seq (.chr ':') domainRE)]

/-- `(\s[-~+?]?include:([\w-]+\.)+[\w-]+)` -/
def spfInclude : RE :=
  .seqs [ws, .quest qual, .litS "include:", domainRE]

/-- `(\sredirect=([\w-]+)[\.\w-]+)` -/
def spfRedirect : RE :=
  .seqs [ws, .litS "redirect=", .plus wdash, .plus wdotdash]

/-- `(\sexp=([\w-]+)[\.\w-]+)` -/
def spfExp : RE :=
  .seqs [ws, .litS "exp=", .plus wdash, .plus wdotdash]

/-- `(\s[-~+?]?exists:[\S]+)` -/
def spfExists : RE :=
  .seqs [ws, .quest qual, .litS "exists:", .plus nonSpace]

/-- `(\s[\w.-]+=[\S]+)` -/
def spfUnknownMod : RE :=
  .seqs [ws, .plus wdotdash, .chr '=', .plus nonSpace]

/-- `^v=spf1( ... )*(\s[-~+?]all)` — the whole pattern of `validate_spf`.
Note the final `all` carries a mandatory qualifier class `[-~+?]` (no `?`),
unlike the optional qualifiers on the mechanisms. -/
def spf_pattern : RE :=
  .seqs [.litS "v=spf1",
    .star (.alts [spfIp4, spfIp6, spfA, spfMx, spfInclude, spfRedirect,
      spfExp, spfExists, spfUnknownMod]),
    ws, qual, .litS "all"]

/-! The DKIM validation pattern (`validate_dkim`, line 147). -/

/-- `\s*;\s*<tag>\s*=\s*` -/
def tagHead (tag : String) : RE :=
  .seqs [.star ws, .chr ';', .star ws, .litS tag, .star ws, .chr '=', .star ws]

/-- `^v\s*=\s*DKIM1((\s*;\s*k\s*=\s*[\w:]+)|(\s*;\s*p\s*=\s*[\w+/]+=*)|(\s*;\s*s\s*=\s*([\w:]+|\*))|(\s*;\s*h\s*=\s*[\w:]+)|(\s*;\s*t\s*=\s*[\w]+)|(\s*;\s*n\s*=\s*[\w\s]+))+\s*;?` -/
def dkim_pattern : RE :=
  .seqs [.chr 'v', .star ws, .chr '=', .star ws, .litS "DKIM1",
    .plus (.alts [
      .seq (tagHead "k") (.plus wcolon),
      .seq (tagHead "p") (.seq (.plus wplusSlash) (.star (.chr '='))),
      .seq (tagHead "s") (.alt (.plus wcolon) (.chr '*')),
      .seq (tagHead "h") (.plus wcolon),
      .seq (tagHead "t") (.plus wordc),
      .seq (tagHead "n") (.plus wspace)]),
    .star ws, .quest (.chr ';')]

/-! The DMARC validation pattern (`validate_dmarc`, line 165). -/

/-- `(none|quarantine|reject)` -/
def policyRE : RE := .alts [.litS "none", .litS "quarantine", .litS "reject"]

/-- `^v\s*=\s*DMARC1\s*;\s*p\s*=\s*(none|quarantine|reject)( ...optional tags... )*`
with the optional tags, in source order: `sp`, `rua`, `ruf`, `adkim`,
`aspf`, `ri`, `fo`, `rf`, `pct`. -/
def dmarc_pattern : RE :=
  .seqs [.chr 'v', .star ws, .chr '=', .star ws, .litS "DMARC1",
    .star ws, .chr ';', .star ws, .chr 'p', .star ws, .chr '=', .star ws, policyRE,
    .star (.alts [
      .seq (tagHead "sp") policyRE,
      .seq (tagHead "rua") (.star noSemi),
      .seq (tagHead "ruf") (.plus noSemi),
      .seq (tagHead "adkim") rsChar,
      .seq (tagHead "aspf") rsChar,
      .seq (tagHead "ri") (.plus digit),
      .seq (tagHead "fo") (.seq foChar (.star (.seqs [.star ws, .chr ':', .star ws, foChar]))),
      .seq (tagHead "rf") (.plus alphaChar),
      .seq (tagHead "pct") (.rep digit 3)])]

/-! The data model of `dauditor`. -/

/-- Python runtime errors the source can raise on the audit path:
`IndexError` from `self.dmarc_record[0]` on an empty list (line 120),
`TypeError` from `len(None)` (lines 127/141/160 when the corresponding
fetch left the field `None`). -/
inductive PyError where
  | indexError : PyError
  | typeError : PyError
deriving DecidableEq, Repr

/-- Outcome of one `resolver.resolve(name, rtype)` call: the list of
`answer.to_text()` strings of the rrset on success (quoted TXT segments
included), or failure for any caught `dns.exception.DNSException`. -/
inductive ResolveResult where
  | ok (answers : List String) : ResolveResult
  | failed : ResolveResult
deriving DecidableEq, Repr

/-- The DNS resolver as an oracle: query name and record type to outcome. -/
def Resolver : Type := String → String → ResolveResult

/-- The `dauditor` object state: constructor arguments plus the three record
fields, which are `None` (here `none`) until the corresponding fetch runs. -/
structure Dauditor where
  target : String
  selectors : List String
  dkim_type : String
  spf_record : Option (List String)
  dkim_records : Option (List String)
  dmarc_record : Option (List String)
deriving DecidableEq, Repr

/-- `dauditor.__init__(audit_target, dkim_selectors=[], dkim_record_type="TXT")`:
the record fields start as the class-level `None`. -/
def dauditorInit (audit_target : String) (dkim_selectors : List String)
    (dkim_record_type : String) : Dauditor :=
  { target := audit_target
    selectors := dkim_selectors
    dkim_type := dkim_record_type
    spf_record := none
    dkim_records := none
    dmarc_record := none }

/-- `dauditor.change_target`: wipe the saved records, then set the new
target, selectors and DKIM type. -/
def change_target (d : Dauditor) (new_target : String)
    (new_dkim_selectors : List String) (new_dkim_type : String) :
    Dauditor :=
  { d with
    spf_record := none
    dkim_records := none
    dmarc_record := none
    target := new_target
    selectors := new_dkim_selectors
    dkim_type := new_dkim_type }

/-- The `detail` component of a validation result: Python returns a string
in every case except `validate_dkim`'s success, which returns the list of
matched spans. -/
inductive VDetail where
  | text (s : String) : VDetail
  | texts (l : List String) : VDetail
deriving DecidableEq, Repr

/-- One validator result: `(ok, detail)`. -/
abbrev Verdict : Type := Bool × VDetail

/-- The dict returned by `audit_dns_records`: for each of the keys
`"SPF"`, `"DKIM"`, `"DMARC"`, the pair (validator result, fetched record
list). -/
structure AuditReport where
  spf : Verdict × List String
  dkim : Verdict × List String
  dmarc : Verdict × List String
deriving DecidableEq, Repr

/-! The fetchers. -/

/-- `dauditor.fetch_spf` (lines 52–71): resolve TXT for the target; on a
`DNSException` leave the freshly reset list empty; otherwise collect, per
answer, the text matched by `re.search(r'v=spf1.+(?=")', answer)`.
Returns the updated object and the returned list. -/
def fetch_spf (r : Resolver) (d : Dauditor) : Dauditor × List String :=
  match r d.target "TXT" with
  | .failed => ({ d with spf_record := some [] }, [])
  | .ok answers =>
      let recs := answers.filterMap (fun a => rsearchGroup spfFetchPat a)
      ({ d with spf_record := some recs }, recs)

/-- The per-selector loop of `fetch_dkim` (lines 86–97): one query per
selector, a failed resolution skipped with `continue`, matches of
`re.search(r'v=DKIM1.+(?=")', answer)` collected in order. -/
def dkimLoop (r : Resolver) (dkim_domain rtype : String) : List String → List String
  | [] => []
  | sel :: rest =>
      match r (sel ++ dkim_domain) rtype with
      | .failed => dkimLoop r dkim_domain rtype rest
      | .ok answers =>
          answers.filterMap (fun a => rsearchGroup dkimFetchPat a)
            ++ dkimLoop r dkim_domain rtype rest

/-- `dauditor.fetch_dkim` (lines 73–98): with no selectors, return `[]`
immediately — note the object's `dkim_records` field is NOT set on this
path (the early return precedes `self.dkim_records = list()`); otherwise
run the per-selector loop and store the result. -/
def fetch_dkim (r : Resolver) (d : Dauditor) : Dauditor × List String :=
  if d.selectors.length = 0 then (d, [])
  else
    let recs := dkimLoop r ("._domainkey." ++ d.target) d.dkim_type d.selectors
    ({ d with dkim_records := some recs }, recs)

/-- `dauditor.fetch_dmarc` (lines 100–122): resolve TXT for
`_dmarc.<target>`; on a `DNSException` return the empty list; otherwise
collect matches of `re.search(r'v=DMARC1.+(?=")', answer)`, then the
segment-join heuristic: `self.dmarc_record[0][0:10] == 'v=DMARC1;"'` —
an `IndexError` when the candidate list is empty — and, when the check
holds, `replace('" "', ' ')` on the first candidate only. -/
def fetch_dmarc (r : Resolver) (d : Dauditor) : Except PyError (Dauditor × List String) :=
  match r ("_dmarc." ++ d.target) "TXT" with
  | .failed => .ok ({ d with dmarc_record := some [] }, [])
  | .ok answers =>
      let recs := answers.filterMap (fun a => rsearchGroup dmarcFetchPat a)
      match recs with
      | [] => .error .indexError
      | first :: rest =>
          let recs2 :=
            if first.take 10 = "v=DMARC1;\"" then joinSegsS first :: rest
            else first :: rest
          .ok ({ d with dmarc_record := some recs2 }, recs2)

/-! The validators. -/

/-- `dauditor.validate_spf` (lines 124–136): fetch when the field is still
`None`; zero candidates → not-found failure, two or more → multiple-records
failure, otherwise `re.match` of the SPF grammar against the single
candidate, success carrying the matched span. -/
def validate_spf (r : Resolver) (d0 : Dauditor) : Except PyError (Dauditor × Verdict) :=
  let d := match d0.spf_record with
           | none => (fetch_spf r d0).1
           | some _ => d0
  match d.spf_record with
  | none => .error .typeError
  | some recs =>
      if recs.length = 0 then
        .ok (d, (false, .text "ERROR: no SPF record was found"))
      else if 2 ≤ recs.length then
        .ok (d, (false, .text "ERROR: multiple SPF records found"))
      else
        match rmatchGroup spf_pattern (recs.headD "") with
        | some g => .ok (d, (true, .text g))
        | none => .ok (d, (false, .text "ERROR: found SPF record was invalid"))

/-- `dauditor.validate_dkim` (lines 138–155): fetch when the field is still
`None` — after which the field is STILL `None` when the selector list is
empty, so `len(self.dkim_records)` raises `TypeError`; zero records →
not-found failure; two or more (counted across ALL selectors) →
"multiple records on the same selector" failure; otherwise collect the
`re.match` spans over the records and succeed iff at least one matched. -/
def validate_dkim (r : Resolver) (d0 : Dauditor) : Except PyError (Dauditor × Verdict) :=
  let d := match d0.dkim_records with
           | none => (fetch_dkim r d0).1
           | some _ => d0
  match d.dkim_records with
  | none => .error .typeError
  | some recs =>
      if recs.length = 0 then
        .ok (d, (false, .text "ERROR: no DKIM record was found"))
      else if 2 ≤ recs.length then
        .ok (d, (false, .text "ERROR: multiple DKIM records found on the same selector"))
      else
        let valid_records := recs.filterMap (fun rec => rmatchGroup dkim_pattern rec)
        if 0 < valid_records.length then .ok (d, (true, .texts valid_records))
        else .ok (d, (false, .text "ERROR: found DKIM records were invalid"))

/-- `dauditor.validate_dmarc` (lines 157–169): fetch when the field is
still `None` (propagating the fetch's possible `IndexError`); zero
candidates → not-found failure; two or more → a failure whose diagnostic
is the DKIM-worded string of line 163; otherwise `re.match` of the DMARC
grammar against the single candidate. -/
def validate_dmarc (r : Resolver) (d0 : Dauditor) : Except PyError (Dauditor × Verdict) :=
  match (match d0.dmarc_record with
         | none => (fetch_dmarc r d0).map Prod.fst
         | some _ => .ok d0) with
  | .error e => .error e
  | .ok d =>
      match d.dmarc_record with
      | none => .error .typeError
      | some recs =>
          if recs.length = 0 then
            .ok (d, (false, .text "ERROR: no DMARC record was found"))
          else if 2 ≤ recs.length then
            .ok (d, (false, .text "ERROR: multiple DKIM records found on the same selector"))
          else
            match rmatchGroup dmarc_pattern (recs.headD "") with
            | some g => .ok (d, (true, .text g))
            | none => .ok (d, (false, .text "ERROR: found DMARC record was invalid"))

/-- `dauditor.audit_dns_records` (lines 171–187): the three fetches in
order, then the dict whose values are computed in order SPF, DKIM, DMARC;
any Python error raised along the way propagates out. -/
def audit_dns_records (r : Resolver) (d0 : Dauditor) : Except PyError AuditReport :=
  let (d1, fetched_spf_record) := fetch_spf r d0
  let (d2, fetched_dkim_record) := fetch_dkim r d1
  match fetch_dmarc r d2 with
  | .error e => .error e
  | .ok (d3, fetched_dmarc_record) =>
      match validate_spf r d3 with
      | .error e => .error e
      | .ok (d4, vspf) =>
          match validate_dkim r d4 with
          | .error e => .error e
          | .ok (d5, vdkim) =>
              match validate_dmarc r d5 with
              | .error e => .error e
              | .ok (_, vdmarc) =>
                  .ok { spf := (vspf, fetched_spf_record)
                        dkim := (vdkim, fetched_dkim_record)
                        dmarc := (vdmarc, fetched_dmarc_record) }

/-! Concrete resolvers and object states used by the theorems below. -/

/-- A resolver for which every query fails (timeout / NXDOMAIN / all
nameservers exhausted — any caught `DNSException`). -/
def resolverAllFail : Resolver := fun _ _ => .failed

/-- A resolver for which every query succeeds but no answer carries any of
the three version markers. -/
def resolverNoCandidates : Resolver := fun _ _ => .ok ["\"hello\""]

/-- A resolver whose every answer is a well-formed DMARC TXT record (so only
the DMARC fetch finds a candidate). -/
def resolverDmarcOnly : Resolver := fun _ _ => .ok ["\"v=DMARC1; p=reject\""]

/-- A resolver with: a TXT answer without SPF marker on the bare domain, a
valid DKIM record under selector `s1`, and a valid DMARC record. -/
def resolverMixed : Resolver := fun name _ =>
  if name = "example.com" then .ok ["\"hello\""]
  else if name = "s1._domainkey.example.com" then .ok ["\"v=DKIM1; k=rsa\""]
  else if name = "_dmarc.example.com" then .ok ["\"v=DMARC1; p=none\""]
  else .failed

/-- A resolver whose DMARC answer is split into two quoted segments with the
boundary in the middle of the `p` tag. -/
def resolverSplitMidTag : Resolver := fun _ _ => .ok ["\"v=DMARC1; p\" \"=reject\""]

/-- A resolver whose DMARC answer is split into two quoted segments with the
boundary immediately after `v=DMARC1;`. -/
def resolverSplitAfterVersion : Resolver := fun _ _ => .ok ["\"v=DMARC1;\" \"p=reject\""]

/-- A fresh auditor for `example.com` whose SPF record field has been set to
`l` (the state `validate_spf` sees right after a fetch that produced `l`). -/
def spfState (l : List String) : Dauditor :=
  { dauditorInit "example.com" [] "TXT" with spf_record := some l }

/-- A fresh auditor whose DMARC record field has been set to `l`. -/
def dmarcState (l : List String) : Dauditor :=
  { dauditorInit "example.com" [] "TXT" with dmarc_record := some l }

/-- An auditor with selectors `s1`, `s2` whose DKIM records field has been
set to `l` (e.g. one record fetched under each selector). -/
def dkimState (l : List String) : Dauditor :=
  { dauditorInit "example.com" ["s1", "s2"] "TXT" with dkim_records := some l }

/-- Projection: the `ok` flag of a validator outcome, `none` when the
validator raised. -/
def verdictOk : Except PyError (Dauditor × Verdict) → Option Bool
  | .ok (_, (b, _)) => some b
  | .error _ => none

/-- When every resolution fails, the per-selector DKIM loop collects
nothing. -/
theorem dkimLoop_allFail (r : Resolver) (dom ty : String)
    (hfail : ∀ q t, r q t = .failed) :
    ∀ sels : List String, dkimLoop r dom ty sels = [] := by
  intro sels
  induction sels with
  | nil => rfl
  | cons s rest ih => simp [dkimLoop, hfail, ih]

/-- Projection: the SPF verdict of an audit report, `none` when the audit
raised. -/
def reportSpfVerdict : Except PyError AuditReport → Option Verdict
  | .ok rep => some rep.spf.1
  | .error _ => none

/-! The claims. -/

/-- Claim C1: the audit does NOT always return a verdict for each kind.
Two concrete runs raise a Python error instead of returning a report:
with resolutions succeeding but no answer carrying a version marker,
`fetch_dmarc` evaluates `self.dmarc_record[0]` on an empty list
(`IndexError`); with an empty selector sequence and a resolvable DMARC
record, `validate_dkim` evaluates `len(None)` because `fetch_dkim`'s
early return never initialises `dkim_records` (`TypeError`). -/
theorem audit_dns_records_raises :
    audit_dns_records resolverNoCandidates (dauditorInit "example.com" [] "TXT")
      = .error .indexError ∧
    audit_dns_records resolverDmarcOnly (dauditorInit "example.com" [] "TXT")
      = .error .typeError := ⟨rfl, rfl⟩

/-- Claim C2, counterexample: when every DNS query fails, the SPF verdict of
the audit is exactly the verdict produced when resolution succeeds with
zero SPF candidates — the diagnostic is the shared
"ERROR: no SPF record was found", not a distinct "not resolvable"
message. -/
theorem resolution_failure_diag_not_distinct :
    reportSpfVerdict (audit_dns_records resolverAllFail
        (dauditorInit "example.com" ["s1"] "TXT"))
      = reportSpfVerdict (audit_dns_records resolverMixed
        (dauditorInit "example.com" ["s1"] "TXT")) ∧
    reportSpfVerdict (audit_dns_records resolverAllFail
        (dauditorInit "example.com" ["s1"] "TXT"))
      = some (false, .text "ERROR: no SPF record was found") := ⟨rfl, rfl⟩

/-- Claim C2, amended: when every DNS query fails (and at least one DKIM
selector is configured), the audit still yields a verdict for each kind
without raising, but each diagnostic is the kind-specific
"no … record was found" message — the same one produced when resolution
succeeds with zero candidates — not a distinct "not resolvable" one. -/
theorem audit_resolution_failure_notfound (r : Resolver) (d : Dauditor)
    (hfail : ∀ q t, r q t = .failed) (hsel : d.selectors ≠ []) :
    audit_dns_records r d =
      .ok { spf := ((false, .text "ERROR: no SPF record was found"), [])
            dkim := ((false, .text "ERROR: no DKIM record was found"), [])
            dmarc := ((false, .text "ERROR: no DMARC record was found"), []) } := by
  have hlen : ¬ d.selectors.length = 0 := by
    simpa [List.length_eq_zero] using hsel
  simp [audit_dns_records, fetch_spf, fetch_dkim, fetch_dmarc,
    validate_spf, validate_dkim, validate_dmarc, hfail, hlen,
    dkimLoop_allFail r _ _ hfail]

/-- Witness for `audit_resolution_failure_notfound` at an all-failing
resolver and a one-selector target. -/
theorem audit_resolution_failure_notfound_witness :
    audit_dns_records resolverAllFail (dauditorInit "example.com" ["s1"] "TXT") =
      .ok { spf := ((false, .text "ERROR: no SPF record was found"), [])
            dkim := ((false, .text "ERROR: no DKIM record was found"), [])
            dmarc := ((false, .text "ERROR: no DMARC record was found"), []) } :=
  audit_resolution_failure_notfound resolverAllFail
    (dauditorInit "example.com" ["s1"] "TXT") (fun _ _ => rfl) (by decide)

/-- Claim C3, counterexample: a candidate whose proper prefix matches the
grammar but which carries trailing unmatched text is ACCEPTED (`ok=true`)
by both the SPF and the DMARC validator, not rejected. -/
theorem validators_accept_trailing_text :
    verdictOk (validate_spf resolverAllFail (spfState ["v=spf1 -allx"]))
      = some true ∧
    verdictOk (validate_dmarc resolverAllFail (dmarcState ["v=DMARC1; p=rejectx"]))
      = some true := ⟨rfl, rfl⟩

/-- Claim C3, amended: the SPF and DMARC validation patterns are anchored
only at the start (`re.match`, no end anchor), so a candidate with trailing
text not matched by the grammar validates with `ok=true` and the matched
proper prefix — not the whole input — as the detail. -/
theorem validators_match_proper_prefix :
    validate_spf resolverAllFail (spfState ["v=spf1 -allx"])
      = .ok (spfState ["v=spf1 -allx"], (true, .text "v=spf1 -all")) ∧
    validate_dmarc resolverAllFail (dmarcState ["v=DMARC1; p=rejectx"])
      = .ok (dmarcState ["v=DMARC1; p=rejectx"], (true, .text "v=DMARC1; p=reject")) ∧
    ("v=spf1 -all" : String) ≠ "v=spf1 -allx" ∧
    ("v=DMARC1; p=reject" : String) ≠ "v=DMARC1; p=rejectx" :=
  ⟨rfl, rfl, by decide, by decide⟩

/-- Claim C4: `validate_dkim` does not judge records per selector — any two
fetched records, even one grammatically valid record under each of two
different selectors, make the flat count reach two and produce the single
"multiple DKIM records found on the same selector" failure. -/
theorem validate_dkim_global_multiple (r : Resolver) (rec1 rec2 : String) :
    validate_dkim r (dkimState [rec1, rec2])
      = .ok (dkimState [rec1, rec2],
          (false, .text "ERROR: multiple DKIM records found on the same selector")) := by
  simp [validate_dkim, dkimState, dauditorInit]

/-- Claim C5, counterexample: a DMARC answer split into two quoted segments
with the boundary inside the `p` tag is NOT joined — the fetched candidate
keeps the literal `" "` segment break instead of becoming the space-joined
record. -/
theorem fetch_dmarc_no_join_midtag :
    fetch_dmarc resolverSplitMidTag (dauditorInit "example.com" [] "TXT")
      = .ok ({ dauditorInit "example.com" [] "TXT" with
               dmarc_record := some ["v=DMARC1; p\" \"=reject"] },
          ["v=DMARC1; p\" \"=reject"]) ∧
    ("v=DMARC1; p\" \"=reject" : String) ≠ "v=DMARC1; p =reject" :=
  ⟨rfl, by decide⟩

/-- Claim C5, amended: the segment join is applied after the version-marker
match, and only when the first ten characters of the first candidate are
exactly `v=DMARC1;"` — i.e. only when the closing quote falls immediately
after `v=DMARC1;`; any other segment boundary leaves the quotes in the
candidate unjoined. -/
theorem fetch_dmarc_join_condition :
    fetch_dmarc resolverSplitAfterVersion (dauditorInit "example.com" [] "TXT")
      = .ok ({ dauditorInit "example.com" [] "TXT" with
               dmarc_record := some ["v=DMARC1; p=reject"] },
          ["v=DMARC1; p=reject"]) ∧
    (fetch_dmarc resolverSplitMidTag (dauditorInit "example.com" [] "TXT")).map Prod.snd
      = .ok ["v=DMARC1; p\" \"=reject"] := ⟨rfl, rfl⟩

/-- Claim C6: the DMARC validator accepts
`v=DMARC1; p=reject; rua=mailto:agg@example.com; pct=100` with the full
string as matched span, and rejects `v=DMARC1; sp=none; p=reject`, where
the mandatory `p` tag does not immediately follow the version token. -/
theorem validate_dmarc_examples :
    validate_dmarc resolverAllFail
      (dmarcState ["v=DMARC1; p=reject; rua=mailto:agg@example.com; pct=100"])
      = .ok (dmarcState ["v=DMARC1; p=reject; rua=mailto:agg@example.com; pct=100"],
          (true, .text "v=DMARC1; p=reject; rua=mailto:agg@example.com; pct=100")) ∧
    validate_dmarc resolverAllFail (dmarcState ["v=DMARC1; sp=none; p=reject"])
      = .ok (dmarcState ["v=DMARC1; sp=none; p=reject"],
          (false, .text "ERROR: found DMARC record was invalid")) := ⟨rfl, rfl⟩

/-- Claim C7, counterexample: the SPF pattern's final `all` group is
`(\s[-~+?]all)` with a MANDATORY qualifier class, so the bare
`v=spf1 all` of the claim is rejected as invalid, not accepted. -/
theorem validate_spf_bare_all_rejected :
    validate_spf resolverAllFail (spfState ["v=spf1 all"])
      = .ok (spfState ["v=spf1 all"],
          (false, .text "ERROR: found SPF record was invalid")) := rfl

/-- Claim C7, amended: the terminating `all` mechanism must carry an
explicit qualifier from `+ - ~ ?`: qualified records validate with the full
matched span, while the unqualified `v=spf1 all` fails validation. -/
theorem validate_spf_qualified_all :
    validate_spf resolverAllFail (spfState ["v=spf1 -all"])
      = .ok (spfState ["v=spf1 -all"], (true, .text "v=spf1 -all")) ∧
    validate_spf resolverAllFail (spfState ["v=spf1 ~all"])
      = .ok (spfState ["v=spf1 ~all"], (true, .text "v=spf1 ~all")) ∧
    verdictOk (validate_spf resolverAllFail (spfState ["v=spf1 all"]))
      = some false := ⟨rfl, rfl, rfl⟩

/-- Claim C8: the SPF validator round-trips the valid record
`v=spf1 include:_spf.example.com -all` — `ok=true` with the detail equal to
the entire input string. -/
theorem validate_spf_roundtrip :
    validate_spf resolverAllFail (spfState ["v=spf1 include:_spf.example.com -all"])
      = .ok (spfState ["v=spf1 include:_spf.example.com -all"],
          (true, .text "v=spf1 include:_spf.example.com -all")) := rfl

/-- Claim C9: with an empty selector sequence `fetch_dkim` returns the empty
list immediately, leaves the object untouched, and consults the resolver on
no query at all (its result is the same under every resolver), so no
resolution error can arise on this path. -/
theorem fetch_dkim_empty_selectors (r r2 : Resolver) (d : Dauditor)
    (hsel : d.selectors = []) :
    fetch_dkim r d = (d, []) ∧ fetch_dkim r d = fetch_dkim r2 d := by
  constructor <;> simp [fetch_dkim, hsel]

/-- Witness for `fetch_dkim_empty_selectors` on a fresh auditor with no
selectors, under two different resolvers. -/
theorem fetch_dkim_empty_selectors_witness :
    fetch_dkim resolverAllFail (dauditorInit "example.com" [] "TXT")
      = (dauditorInit "example.com" [] "TXT", []) ∧
    fetch_dkim resolverAllFail (dauditorInit "example.com" [] "TXT")
      = fetch_dkim resolverMixed (dauditorInit "example.com" [] "TXT") :=
  fetch_dkim_empty_selectors resolverAllFail resolverMixed
    (dauditorInit "example.com" [] "TXT") rfl

/-- Claim C10: whenever `validate_dmarc` sees two or more candidates its
diagnostic is the string "ERROR: multiple DKIM records found on the same
selector" — the very string `validate_dkim` produces for two or more
records — so the two failures cannot be told apart from the diagnostic
text. -/
theorem multiple_records_diagnostic_shared (r r2 : Resolver) (d d2 : Dauditor)
    (l l2 : List String) (h : d.dmarc_record = some l) (hl : 2 ≤ l.length)
    (h2 : d2.dkim_records = some l2) (hl2 : 2 ≤ l2.length) :
    validate_dmarc r d
      = .ok (d, (false, .text "ERROR: multiple DKIM records found on the same selector")) ∧
    validate_dkim r2 d2
      = .ok (d2, (false, .text "ERROR: multiple DKIM records found on the same selector")) := by
  constructor
  · have h0 : ¬ l.length = 0 := by omega
    simp [validate_dmarc, h, h0, hl]
  · have h0 : ¬ l2.length = 0 := by omega
    simp [validate_dkim, h2, h0, hl2]

/-- Witness for `multiple_records_diagnostic_shared` at two-element record
lists. -/
theorem multiple_records_diagnostic_shared_witness :
    validate_dmarc resolverAllFail (dmarcState ["a", "b"])
      = .ok (dmarcState ["a", "b"],
          (false, .text "ERROR: multiple DKIM records found on the same selector")) ∧
    validate_dkim resolverAllFail (dkimState ["a", "b"])
      = .ok (dkimState ["a", "b"],
          (false, .text "ERROR: multiple DKIM records found on the same selector")) :=
  multiple_records_diagnostic_shared resolverAllFail resolverAllFail
    (dmarcState ["a", "b"]) (dkimState ["a", "b"]) ["a", "b"] ["a", "b"]
    rfl (by decide) rfl (by decide)

end DAud
